import Mathlib

/-!
Verification of the health-check feature of a Nuxt + Hono sample repository.

The development shallowly embeds the load-bearing TypeScript sources:
error constants and classifier (`app/constants/error.ts`,
`app/helpers/error.ts`), the health service (`app/services/health.ts`),
the query adapter and error composer (`app/composables/useHealth/*` and
their revisions), the client-state store (`store` revision files), and the
Hono health route handlers (server route revisions).

JavaScript values that matter to the claims (strings, optional fields,
`null`/`undefined` throwables, property access that can raise a
TypeError) are modelled explicitly; machine-level concerns do not arise.
-/

/-! ## HTTP status constants (`shared/constants/httpStatus.ts`) -/

/-- Subset of the HTTP_STATUS table used by the health feature.
`NETWORK_ERROR` is the special code 0 used for fetch connection errors. -/
structure HttpStatusTable where
  OK : Nat
  REQUEST_TIMEOUT : Nat
  INTERNAL_SERVER_ERROR : Nat
  BAD_GATEWAY : Nat
  SERVICE_UNAVAILABLE : Nat
  GATEWAY_TIMEOUT : Nat
  NETWORK_ERROR : Nat
deriving DecidableEq, Repr

/-- Embedding of the `HTTP_STATUS` constant object. -/
def HTTP_STATUS : HttpStatusTable :=
  { OK := 200
    REQUEST_TIMEOUT := 408
    INTERNAL_SERVER_ERROR := 500
    BAD_GATEWAY := 502
    SERVICE_UNAVAILABLE := 503
    GATEWAY_TIMEOUT := 504
    NETWORK_ERROR := 0 }

/-! ## Error constants (`app/constants/error.ts`) -/

/-- Embedding of `ErrorDefinition`: one row of the ERROR_DEFINITIONS table. -/
structure ErrorDefinition where
  errorCode : String
  message : String
  httpStatus : List Nat
deriving DecidableEq, Repr

/-- Row for ERROR_CODES.NETWORK_ERROR. -/
def networkErrorDef : ErrorDefinition :=
  { errorCode := "NET_001"
    message := "ネットワークエラーが発生しました"
    httpStatus := [HTTP_STATUS.NETWORK_ERROR, HTTP_STATUS.REQUEST_TIMEOUT,
      HTTP_STATUS.BAD_GATEWAY, HTTP_STATUS.SERVICE_UNAVAILABLE,
      HTTP_STATUS.GATEWAY_TIMEOUT] }

/-- Row for ERROR_CODES.TIMEOUT_ERROR. -/
def timeoutErrorDef : ErrorDefinition :=
  { errorCode := "NET_002"
    message := "接続がタイムアウトしました"
    httpStatus := [HTTP_STATUS.REQUEST_TIMEOUT] }

/-- Row for ERROR_CODES.SERVER_ERROR. -/
def serverErrorDef : ErrorDefinition :=
  { errorCode := "SVR_001"
    message := "サーバーエラーが発生しました"
    httpStatus := [HTTP_STATUS.INTERNAL_SERVER_ERROR] }

/-- Row for ERROR_CODES.SERVICE_UNAVAILABLE. -/
def serviceUnavailableDef : ErrorDefinition :=
  { errorCode := "SVR_002"
    message := "サービスが一時的に利用できません"
    httpStatus := [HTTP_STATUS.SERVICE_UNAVAILABLE] }

/-- Row for ERROR_CODES.UNKNOWN_ERROR. -/
def unknownErrorDef : ErrorDefinition :=
  { errorCode := "UNK_001"
    message := "エラーが発生しました"
    httpStatus := [] }

/-- Embedding of the `ERROR_DEFINITIONS` record as a key lookup:
`ERROR_DEFINITIONS c = some d` exactly when the TypeScript object has key
`c` (the JS `c in ERROR_DEFINITIONS` test is `(ERROR_DEFINITIONS c).isSome`). -/
def ERROR_DEFINITIONS (code : String) : Option ErrorDefinition :=
  if code = "NET_001" then some networkErrorDef
  else if code = "NET_002" then some timeoutErrorDef
  else if code = "SVR_001" then some serverErrorDef
  else if code = "SVR_002" then some serviceUnavailableDef
  else if code = "UNK_001" then some unknownErrorDef
  else none

/-- The closed set of keys of ERROR_DEFINITIONS. -/
def errorDefinitionKeys : List String :=
  ["NET_001", "NET_002", "SVR_001", "SVR_002", "UNK_001"]

/-- Embedding of `DEFAULT_ERROR = ERROR_DEFINITIONS[ERROR_CODES.UNKNOWN_ERROR]`. -/
def DEFAULT_ERROR : ErrorDefinition := unknownErrorDef

/-! ## Error data model (`app/types/error.ts` and the `$fetch` error shape) -/

/-- The structured payload a `$fetch` error may carry (`data` on the error):
`errorCode` is `string | undefined`, modelled as `Option String`. -/
structure ErrData where
  errorCode : Option String
deriving DecidableEq, Repr

/-- A JavaScript `Error` object as seen by the health feature: a message,
an optional structured `data` payload, and an optional HTTP status code.
Fields other than `data.errorCode` exist to express that the classifier
ignores them. -/
structure RawError where
  message : String
  data : Option ErrData
  statusCode : Option Nat
deriving DecidableEq, Repr

/-- Embedding of `ErrorInfo` from `app/types/error.ts`. -/
structure ErrorInfo where
  errorCode : String
  errorMessage : String
deriving DecidableEq, Repr

/-! ## Error classifier (`app/helpers/error.ts`) -/

/-- The branch of `classifyError` after `serverErrorCode` has been
extracted: if the code is truthy (a non-empty string) and is a key of
ERROR_DEFINITIONS, build the ErrorInfo from that row; otherwise return the
DEFAULT_ERROR info. -/
def classifyCode : Option String → ErrorInfo
  | some c =>
      if c ≠ "" then
        match ERROR_DEFINITIONS c with
        | some definition =>
            { errorCode := definition.errorCode, errorMessage := definition.message }
        | none =>
            { errorCode := DEFAULT_ERROR.errorCode, errorMessage := DEFAULT_ERROR.message }
      else
        { errorCode := DEFAULT_ERROR.errorCode, errorMessage := DEFAULT_ERROR.message }
  | none =>
      { errorCode := DEFAULT_ERROR.errorCode, errorMessage := DEFAULT_ERROR.message }

/-- Embedding of `classifyError` for a well-typed `Error` argument:
`const serverErrorCode = fetchError.data?.errorCode` followed by the
truthiness-and-membership branch. -/
def classifyError (error : RawError) : ErrorInfo :=
  classifyCode (error.data.bind ErrData.errorCode)

/-- Whether the raw error carries a truthy, recognized `data.errorCode`
(the condition of the first branch of `classifyError`). -/
def hasRecognizedCode (error : RawError) : Bool :=
  match error.data.bind ErrData.errorCode with
  | some c => (c != "") && (ERROR_DEFINITIONS c).isSome
  | none => false

/-- An arbitrary JavaScript throwable reaching `classifyError` at runtime:
`null`, `undefined`, a plain string, or an `Error`-like object. -/
inductive Throwable where
  | jsNull
  | jsUndefined
  | jsString (s : String)
  | errObj (e : RawError)
deriving DecidableEq, Repr

/-- JS semantics of reading the `data` property in
`fetchError.data?.errorCode`: a TypeError on `null`/`undefined`
(the access happens before the optional chain), `undefined` on a plain
string, the field on an object. -/
def dataPropAccess : Throwable → Except Unit (Option ErrData)
  | .jsNull => .error ()
  | .jsUndefined => .error ()
  | .jsString _ => .ok none
  | .errObj e => .ok e.data

/-- Embedding of `classifyError` applied to an arbitrary throwable, with
the possible TypeError of the `.data` access made explicit. -/
def classifyErrorJS (t : Throwable) : Except Unit ErrorInfo :=
  match dataPropAccess t with
  | .error u => .error u
  | .ok d => .ok (classifyCode (d.bind ErrData.errorCode))

/-! ### Classifier helper lemmas -/

/-- An unrecognized or absent code always classifies to the default info. -/
theorem classifyCode_default (oc : Option String)
    (h : (match oc with
          | some c => (c != "") && (ERROR_DEFINITIONS c).isSome
          | none => false) = false) :
    classifyCode oc = { errorCode := "UNK_001", errorMessage := "エラーが発生しました" } := by
  match oc with
  | none => rfl
  | some c =>
      simp only [Bool.and_eq_false_iff, bne_eq_false_iff_eq] at h
      rcases h with h | h
      · subst h; rfl
      · unfold classifyCode
        rcases hd : ERROR_DEFINITIONS c with _ | d
        · simp [hd, DEFAULT_ERROR, unknownErrorDef]
        · rw [hd] at h; simp at h

/-- classifyError on an unrecognized error is the default info. -/
theorem classifyError_default (e : RawError) (h : hasRecognizedCode e = false) :
    classifyError e = { errorCode := "UNK_001", errorMessage := "エラーが発生しました" } :=
  classifyCode_default (e.data.bind ErrData.errorCode) h

/-! ## Claim theorems about the classifier -/

/-- C1: for every errorCode in the closed set {NET_001, NET_002, SVR_001,
SVR_002, UNK_001}, classifyError on an error whose data.errorCode equals
that code returns an ErrorInfo whose errorCode is that code and whose
errorMessage is the message of that code's ERROR_DEFINITIONS row. -/
theorem classifyError_known_code (c msg : String) (st : Option Nat)
    (h : c ∈ errorDefinitionKeys) :
    ∃ d : ErrorDefinition, ERROR_DEFINITIONS c = some d ∧
      classifyError ⟨msg, some ⟨some c⟩, st⟩ = { errorCode := c, errorMessage := d.message } := by
  simp only [errorDefinitionKeys, List.mem_cons, List.mem_singleton,
    List.not_mem_nil, or_false] at h
  rcases h with h | h | h | h | h <;> subst h <;> exact ⟨_, rfl, rfl⟩

/-- Witness for C1 at the concrete code SVR_002. -/
theorem classifyError_known_code_witness :
    ∃ d : ErrorDefinition, ERROR_DEFINITIONS "SVR_002" = some d ∧
      classifyError ⟨"boom", some ⟨some "SVR_002"⟩, some 500⟩ =
        { errorCode := "SVR_002", errorMessage := d.message } :=
  classifyError_known_code "SVR_002" "boom" (some 500) (by decide)

/-- C2 counterexample: applying classifyError to the throwable null does
not return the default ErrorInfo — the data property access throws a
TypeError, so the claim that it never throws is false at this input. -/
theorem classifyError_null_throws :
    classifyErrorJS Throwable.jsNull = Except.error () ∧
    classifyErrorJS Throwable.jsNull ≠
      Except.ok { errorCode := "UNK_001", errorMessage := "エラーが発生しました" } :=
  ⟨rfl, fun h => Except.noConfusion h⟩

/-- C2 amended: for every input on which the data property access is
defined — any plain string and any Error-like object — lacking a
recognized errorCode, classifyError returns the default ErrorInfo and
does not throw; the inputs null and undefined instead raise a TypeError
at the property access. -/
theorem classifyError_unrecognized_default (s : String) (e : RawError)
    (h : hasRecognizedCode e = false) :
    classifyErrorJS (Throwable.jsString s) =
      Except.ok { errorCode := "UNK_001", errorMessage := "エラーが発生しました" } ∧
    classifyErrorJS (Throwable.errObj e) =
      Except.ok { errorCode := "UNK_001", errorMessage := "エラーが発生しました" } ∧
    classifyErrorJS Throwable.jsNull = Except.error () ∧
    classifyErrorJS Throwable.jsUndefined = Except.error () := by
  refine ⟨rfl, ?_, rfl, rfl⟩
  show Except.ok (classifyCode (e.data.bind ErrData.errorCode)) = _
  rw [classifyCode_default (e.data.bind ErrData.errorCode) h]

/-- Witness for the amended C2: a plain string and an object carrying an
unrecognized code both classify to the default info. -/
theorem classifyError_unrecognized_default_witness :
    classifyErrorJS (Throwable.jsString "oops") =
      Except.ok { errorCode := "UNK_001", errorMessage := "エラーが発生しました" } ∧
    classifyErrorJS (Throwable.errObj ⟨"m", some ⟨some "XXX_9"⟩, none⟩) =
      Except.ok { errorCode := "UNK_001", errorMessage := "エラーが発生しました" } ∧
    classifyErrorJS Throwable.jsNull = Except.error () ∧
    classifyErrorJS Throwable.jsUndefined = Except.error () :=
  classifyError_unrecognized_default "oops" ⟨"m", some ⟨some "XXX_9"⟩, none⟩ (by decide)

/-- C10: classifyError depends only on the extracted data.errorCode — two
raw errors with equal extracted codes, or both unrecognized, classify
identically whatever their message, status or other fields. -/
theorem classifyError_deterministic (e₁ e₂ : RawError)
    (h : e₁.data.bind ErrData.errorCode = e₂.data.bind ErrData.errorCode ∨
         (hasRecognizedCode e₁ = false ∧ hasRecognizedCode e₂ = false)) :
    classifyError e₁ = classifyError e₂ := by
  rcases h with h | ⟨h₁, h₂⟩
  · show classifyCode _ = classifyCode _
    rw [h]
  · rw [classifyError_default e₁ h₁, classifyError_default e₂ h₂]

/-- Witness for C10: same code NET_001 under different messages and
statuses yields the same ErrorInfo. -/
theorem classifyError_deterministic_witness :
    classifyError ⟨"a", some ⟨some "NET_001"⟩, some 0⟩ =
    classifyError ⟨"b", some ⟨some "NET_001"⟩, some 503⟩ :=
  classifyError_deterministic _ _ (Or.inl rfl)

/-! ## Health API response (`shared/types/api`, validated by zod) -/

/-- A health response that passed `zGetApiHealthResponse.parse`: both
fields are present strings (the schema is
`z.object({ status: z.string(), timestamp: z.iso.datetime() })`). -/
structure GetApiHealthResponse where
  status : String
  timestamp : String
deriving DecidableEq, Repr

/-! ## Health service (`app/services/health.ts`) -/

/-- Options of the `$fetch('/api/health', ...)` call inside `getHealthApi`. -/
structure FetchOptions where
  method : String
  timeout : Nat
deriving DecidableEq, Repr

/-- The options the health service passes to `$fetch`: GET with the fixed
5000 ms timeout (`timeout: 5_000`). -/
def healthFetchOptions : FetchOptions :=
  { method := "GET", timeout := 5000 }

/-- Embedding of the catch-branch coercion
`error instanceof Error ? error : new Error(`Unknown error: ${String(error)}`)`:
an Error object passes through, any other throwable is wrapped in a fresh
Error whose message stringifies it. -/
def wrapUnknownError : Throwable → RawError
  | .errObj e => e
  | .jsNull => { message := "Unknown error: null", data := none, statusCode := none }
  | .jsUndefined => { message := "Unknown error: undefined", data := none, statusCode := none }
  | .jsString s => { message := "Unknown error: " ++ s, data := none, statusCode := none }

/-- Embedding of `getHealthApi` from `app/services/health.ts`. The
argument is the outcome of the try block (the awaited `$fetch` followed by
`zGetApiHealthResponse.parse`, either of which may throw): on success the
validated data is returned as `ok`, on any thrown value the catch branch
returns `err` of the coerced Error. -/
def getHealthApi (attempt : Except Throwable GetApiHealthResponse) :
    Except RawError GetApiHealthResponse :=
  match attempt with
  | .ok validatedData => .ok validatedData
  | .error error => .error (wrapUnknownError error)

/-! ## Adapter (`app/composables/useHealth/useHealthAdapter.ts`) -/

/-- Embedding of the adapter's display shape `HealthStatusData`. -/
structure HealthStatusData where
  healthStatus : String
  healthTimestamp : String
deriving DecidableEq, Repr

/-- Embedding of `computed(() => healthData.value?.status ?? '-')`. -/
def healthStatusOf (healthData : Option GetApiHealthResponse) : String :=
  (healthData.map GetApiHealthResponse.status).getD "-"

/-- Embedding of `computed(() => healthData.value?.timestamp ?? '-')`. -/
def healthTimestampOf (healthData : Option GetApiHealthResponse) : String :=
  (healthData.map GetApiHealthResponse.timestamp).getD "-"

/-- Embedding of the adapter's `healthStatusData` computed, which pairs the
two coalesced fields. `none` models the absent query data of the initial
load. -/
def healthStatusData (healthData : Option GetApiHealthResponse) : HealthStatusData :=
  { healthStatus := healthStatusOf healthData
    healthTimestamp := healthTimestampOf healthData }

/-- The query result in the Result-style revision of the feature: absent
before the first settle, then `ok` response or `err` Error. -/
def HealthResult : Type := Option (Except RawError GetApiHealthResponse)

/-- Embedding of the Result-match revision of `healthStatusData`
(useHealthAdapter revision): sentinel when data is absent, the response
fields on success, sentinel again on failure. -/
def healthStatusDataR : HealthResult → HealthStatusData
  | none => { healthStatus := "-", healthTimestamp := "-" }
  | some (.ok r) => { healthStatus := r.status, healthTimestamp := r.timestamp }
  | some (.error _) => { healthStatus := "-", healthTimestamp := "-" }

/-! ## Error composer (`useHealthError` revision) -/

/-- The retry closure exposed by the composer; the only value the source
ever binds is the synchronizer's `refetch`. -/
inductive RetryAction where
  | refetch
deriving DecidableEq, Repr

/-- Embedding of `HealthErrorDisplayData`: the spread of `classifyError`
output plus the retry closure. -/
structure HealthErrorDisplayData where
  errorMessage : String
  errorCode : String
  retryAction : RetryAction
deriving DecidableEq, Repr

/-- Embedding of the `healthErrorDisplayData` computed of `useHealthError`:
`null` while no result or on success, and on failure the classified error
info together with `retryAction: refetch`. -/
def healthErrorDisplayData : HealthResult → Option HealthErrorDisplayData
  | none => none
  | some (.ok _) => none
  | some (.error e) =>
      some { errorMessage := (classifyError e).errorMessage
             errorCode := (classifyError e).errorCode
             retryAction := .refetch }

/-! ## Client-state store (`useHealthStore` and `useHealthInput.ts`) -/

/-- The state of the `health` store: the single `input` ref. -/
structure HealthStoreState where
  input : String
deriving DecidableEq, Repr

/-- Embedding of `ref('')`: the store's initial state. -/
def initialHealthStoreState : HealthStoreState :=
  { input := "" }

/-- Embedding of the `updateInput` action: `input.value = value`. -/
def updateInput (value : String) (s : HealthStoreState) : HealthStoreState :=
  { s with input := value }

/-- Getter of the two-way computed `sampleInput` in `useHealthInput.ts`:
`get: () => input.value`. -/
def sampleInputGet (s : HealthStoreState) : String :=
  s.input

/-- Setter of the two-way computed `sampleInput`:
`set: (value) => updateInput(value)`. -/
def sampleInputSet (value : String) (s : HealthStoreState) : HealthStoreState :=
  updateInput value s

/-! ## Claim theorems about the adapter, composer, store and service -/

/-- C3: the adapter's display data is a total function of the fetched
value — a validated response maps to its own status and timestamp with no
transformation, and absent data maps to the sentinel pair, in both the
coalescing adapter and its Result-match revision. -/
theorem healthStatusData_total (r : GetApiHealthResponse) :
    healthStatusData (some r) = { healthStatus := r.status, healthTimestamp := r.timestamp } ∧
    healthStatusData none = { healthStatus := "-", healthTimestamp := "-" } ∧
    healthStatusDataR (some (.ok r)) =
      { healthStatus := r.status, healthTimestamp := r.timestamp } ∧
    healthStatusDataR none = { healthStatus := "-", healthTimestamp := "-" } :=
  ⟨rfl, rfl, rfl, rfl⟩

/-- C4: a failed fetch carrying errorCode SVR_002 makes the composer yield
the service-unavailable ErrorInfo with the refetch retry action, and one
carrying NET_002 yields the network-timeout ErrorInfo of the table. -/
theorem healthErrorDisplayData_simulated (msg : String) (st : Option Nat) :
    healthErrorDisplayData (some (.error ⟨msg, some ⟨some "SVR_002"⟩, st⟩)) =
      some { errorMessage := "サービスが一時的に利用できません", errorCode := "SVR_002",
             retryAction := .refetch } ∧
    healthErrorDisplayData (some (.error ⟨msg, some ⟨some "NET_002"⟩, st⟩)) =
      some { errorMessage := "接続がタイムアウトしました", errorCode := "NET_002",
             retryAction := .refetch } :=
  ⟨rfl, rfl⟩

/-- C6: ErrorInfo and real DisplayData are mutually exclusive — on a
successful result the error display is null and the display data is real;
on a failed result the error display is non-null and the display data
holds only the sentinels. -/
theorem health_display_mutually_exclusive (r : GetApiHealthResponse) (e : RawError) :
    healthErrorDisplayData (some (.ok r)) = none ∧
    healthStatusDataR (some (.ok r)) =
      { healthStatus := r.status, healthTimestamp := r.timestamp } ∧
    healthErrorDisplayData (some (.error e)) ≠ none ∧
    healthStatusDataR (some (.error e)) = { healthStatus := "-", healthTimestamp := "-" } :=
  ⟨rfl, rfl, fun h => Option.noConfusion h, rfl⟩

/-- C7: the store starts with the empty input, and the two-way computed
wrapper satisfies the set-then-get round trip for every string and every
store state. -/
theorem healthStore_set_get (v : String) (s : HealthStoreState) :
    initialHealthStoreState.input = "" ∧
    sampleInputGet (sampleInputSet v s) = v :=
  ⟨rfl, rfl⟩

/-- C8: the health service's fetch carries the fixed 5000 ms timeout, and
every thrown outcome of the fetch-and-validate block (timeout included) is
returned as an err Failure rather than dropped. -/
theorem healthService_timeout_failure (t : Throwable) :
    healthFetchOptions.timeout = 5000 ∧
    getHealthApi (.error t) = .error (wrapUnknownError t) ∧
    (getHealthApi (.error t)).isOk = false :=
  ⟨rfl, rfl, rfl⟩

/-- C9: getHealthApi is total over outcomes — success is returned as ok of
the validated value, an Error throwable is returned as err unchanged, and
every non-Error throwable is wrapped into a fresh Error before being
returned as err, so no exception propagates. -/
theorem getHealthApi_total (v : GetApiHealthResponse) (e : RawError) (s : String) :
    getHealthApi (.ok v) = .ok v ∧
    getHealthApi (.error (.errObj e)) = .error e ∧
    getHealthApi (.error (.jsString s)) =
      .error { message := "Unknown error: " ++ s, data := none, statusCode := none } ∧
    getHealthApi (.error .jsNull) =
      .error { message := "Unknown error: null", data := none, statusCode := none } ∧
    getHealthApi (.error .jsUndefined) =
      .error { message := "Unknown error: undefined", data := none, statusCode := none } :=
  ⟨rfl, rfl, rfl, rfl, rfl⟩

/-! ## Server health route (`server/api` revisions) -/

/-- JS `String.prototype.includes` on character lists: does `sub` occur as
a contiguous run of `l`? -/
def listIncludes (sub : List Char) : List Char → Bool
  | [] => sub.isEmpty
  | c :: rest => sub.isPrefixOf (c :: rest) || listIncludes sub rest

/-- JS `s.includes(sub)`. -/
def strIncludes (s sub : String) : Bool :=
  listIncludes sub.toList s.toList

/-- JS `s.startsWith(p)`. -/
def strStartsWith (s p : String) : Bool :=
  p.toList.isPrefixOf s.toList

/-- The ERROR_TYPES entries of `shared/constants/errorCode.ts` used by the
health route. -/
structure ErrorTypesTable where
  CONNECTION_ERROR : String
  TIMEOUT_ERROR : String
  INTERNAL_SERVER_ERROR : String
  SERVICE_UNAVAILABLE : String
  EXTERNAL_API_ERROR : String
  FILE_OPERATION_ERROR : String
  UNEXPECTED_ERROR : String
deriving DecidableEq, Repr

/-- Embedding of the `ERROR_TYPES` constant object. -/
def ERROR_TYPES : ErrorTypesTable :=
  { CONNECTION_ERROR := "NET_001"
    TIMEOUT_ERROR := "NET_002"
    INTERNAL_SERVER_ERROR := "SVR_001"
    SERVICE_UNAVAILABLE := "SVR_002"
    EXTERNAL_API_ERROR := "SVR_004"
    FILE_OPERATION_ERROR := "SVR_005"
    UNEXPECTED_ERROR := "UNK_001" }

/-- The validated `simulate` query parameter
(`z.enum(['error', 'timeout']).optional()`); `none` models its absence. -/
inductive Simulate where
  | simError
  | simTimeout
deriving DecidableEq, Repr

/-- A JSON body returned by a health route: either the success shape
`{status, timestamp}` or the failure shape `{error, errorCode, timestamp}`;
`text` is the plain-text body of the earliest plain-Hono revision. -/
inductive ResponseBody where
  | success (status : String) (timestamp : String)
  | failure (error : String) (errorCode : String) (timestamp : String)
  | text (s : String)
deriving DecidableEq, Repr

/-- An HTTP response of a health route: body plus status code. -/
structure HandlerResponse where
  body : ResponseBody
  httpStatus : Nat
deriving DecidableEq, Repr

/-- Embedding of `createErrorResponse(errorCode, customMessage)` as the
health handlers call it (custom message always supplied, timestamp
defaulted to `new Date().toISOString()`, modelled by the `now` argument). -/
def createErrorResponse (errorCode : String) (customMessage : String) (now : String) :
    ResponseBody :=
  .failure customMessage errorCode now

/-- Embedding of the simple OpenAPI health handler revision: error and
timeout simulation with literal bodies, otherwise the 200 success body. -/
def healthHandlerSimple (simulate : Option Simulate) (now : String) : HandlerResponse :=
  match simulate with
  | some .simError =>
      { body := .failure "Service temporarily unavailable" "SVR_002" now
        httpStatus := HTTP_STATUS.INTERNAL_SERVER_ERROR }
  | some .simTimeout =>
      { body := .failure "Request timeout occurred" "NET_002" now
        httpStatus := HTTP_STATUS.REQUEST_TIMEOUT }
  | none =>
      { body := .success "ok" now, httpStatus := HTTP_STATUS.OK }

/-- Embedding of the earliest plain-Hono revision of `server/api/index.ts`:
GET /api/health answers 200 with a fixed text body. -/
def healthHandlerPlainText : HandlerResponse :=
  { body := .text "This is Nuxt Frontend Architect Sample API Server!"
    httpStatus := HTTP_STATUS.OK }

/-- Result of one internal health check of the elaborate handler revision. -/
inductive HealthCheckResult (α : Type) where
  | success (data : α)
  | failure (error : String)
deriving DecidableEq, Repr

/-- The runtime environment the elaborate handler's checks observe:
heap usage in MB, the mock external service's health (the resolved random
boolean), and the `Date.now()` value used by the file-system check. -/
structure ServerEnv where
  heapUsedMB : Nat
  extServiceHealthy : Bool
  fsNow : Nat
deriving DecidableEq, Repr

/-- Embedding of `checkMemoryUsage`: fails above 1024 MB of heap. -/
def checkMemoryUsage (env : ServerEnv) : HealthCheckResult Nat :=
  if env.heapUsedMB > 1024 then .failure "High memory usage detected"
  else .success env.heapUsedMB

/-- The string `JSON.stringify({ test: true, timestamp: Date.now() })`. -/
def jsonStringifyTest (n : Nat) : String :=
  "\x7b\"test\":true,\"timestamp\":" ++ toString n ++ "\x7d"

/-- Embedding of `checkFileSystemAccess`: succeeds when the stringified
test payload is truthy (a non-empty string). -/
def checkFileSystemAccess (env : ServerEnv) : HealthCheckResult String :=
  let testData := jsonStringifyTest env.fsNow
  if testData ≠ "" then .success testData else .failure "FILE_SYSTEM_ERROR"

/-- Embedding of `checkExternalService`: the mock resolves the given
boolean and never rejects, so the catch branch of the source is dead. -/
def checkExternalService (env : ServerEnv) : HealthCheckResult Bool :=
  if env.extServiceHealthy then .success true else .failure "EXTERNAL_SERVICE_ERROR"

/-- Embedding of `performHealthChecks`: memory, file system, then external
service; the first failure is thrown as an Error with that message. -/
def performHealthChecks (env : ServerEnv) : Except String Unit :=
  match checkMemoryUsage env with
  | .failure e => .error e
  | .success _ =>
      match checkFileSystemAccess env with
      | .failure e => .error e
      | .success _ =>
          match checkExternalService env with
          | .failure e => .error e
          | .success _ => .ok ()

/-- The errorCode the elaborate handler's catch branch assigns from the
thrown Error's message. -/
def healthCheckErrorCode (msg : String) : String :=
  if strIncludes msg "FILE_SYSTEM_ERROR" then ERROR_TYPES.FILE_OPERATION_ERROR
  else if strIncludes msg "EXTERNAL_SERVICE_ERROR" || strIncludes msg "EXTERNAL_API_ERROR" then
    ERROR_TYPES.EXTERNAL_API_ERROR
  else if strIncludes msg "memory" then ERROR_TYPES.INTERNAL_SERVER_ERROR
  else ERROR_TYPES.UNEXPECTED_ERROR

/-- The custom message the elaborate handler's catch branch assigns from
the thrown Error's message. -/
def healthCheckErrorMessage (msg : String) : String :=
  if strIncludes msg "FILE_SYSTEM_ERROR" then "File system health check failed"
  else if strIncludes msg "EXTERNAL_SERVICE_ERROR" || strIncludes msg "EXTERNAL_API_ERROR" then
    "External service health check failed"
  else if strIncludes msg "memory" then "System resource health check failed"
  else "Unexpected error during health check"

/-- Embedding of the elaborate OpenAPI health handler revision: simulation
branches as in the simple revision, and otherwise real health checks whose
failure is classified by message and answered with 500 for SVR_ codes and
503 otherwise. -/
def healthHandlerChecked (simulate : Option Simulate) (env : ServerEnv) (now : String) :
    HandlerResponse :=
  match simulate with
  | some .simError =>
      { body := createErrorResponse ERROR_TYPES.SERVICE_UNAVAILABLE
          "Service temporarily unavailable for maintenance" now
        httpStatus := HTTP_STATUS.INTERNAL_SERVER_ERROR }
  | some .simTimeout =>
      { body := createErrorResponse ERROR_TYPES.TIMEOUT_ERROR
          "Health check request timeout occurred" now
        httpStatus := HTTP_STATUS.REQUEST_TIMEOUT }
  | none =>
      match performHealthChecks env with
      | .ok _ => { body := .success "ok" now, httpStatus := HTTP_STATUS.OK }
      | .error msg =>
          let errorCode := healthCheckErrorCode msg
          { body := createErrorResponse errorCode (healthCheckErrorMessage msg) now
            httpStatus :=
              if strStartsWith errorCode "SVR_" then HTTP_STATUS.INTERNAL_SERVER_ERROR
              else HTTP_STATUS.SERVICE_UNAVAILABLE }

/-- The stringified file-system test payload is never the empty string. -/
theorem jsonStringifyTest_ne_empty (n : Nat) : jsonStringifyTest n ≠ "" := by
  intro h
  have hl := congrArg String.length h
  simp [jsonStringifyTest, String.length_append] at hl
  exact (by decide : ("\x7d".length = 0) = False) ▸ hl.2

/-- The file-system check of the elaborate handler always succeeds. -/
theorem checkFileSystemAccess_success (env : ServerEnv) :
    checkFileSystemAccess env = .success (jsonStringifyTest env.fsNow) := by
  unfold checkFileSystemAccess
  simp [jsonStringifyTest_ne_empty]

/-- When memory is within bounds and the external service is healthy, all
internal health checks pass. -/
theorem performHealthChecks_ok (env : ServerEnv)
    (hmem : env.heapUsedMB ≤ 1024) (hext : env.extServiceHealthy = true) :
    performHealthChecks env = .ok () := by
  unfold performHealthChecks checkMemoryUsage checkExternalService
  rw [checkFileSystemAccess_success]
  simp [Nat.not_lt.mpr hmem, hext]

/-- When memory exceeds the 1024 MB bound, the health checks fail with
the memory error regardless of the other environment fields. -/
theorem performHealthChecks_memory_fail (env : ServerEnv)
    (hmem : 1024 < env.heapUsedMB) :
    performHealthChecks env = .error "High memory usage detected" := by
  unfold performHealthChecks checkMemoryUsage
  simp [hmem]

/-- When memory is within bounds but the external service is unhealthy,
the health checks fail with the external-service error. -/
theorem performHealthChecks_external_fail (env : ServerEnv)
    (hmem : env.heapUsedMB ≤ 1024) (hext : env.extServiceHealthy = false) :
    performHealthChecks env = .error "EXTERNAL_SERVICE_ERROR" := by
  unfold performHealthChecks checkMemoryUsage checkExternalService
  rw [checkFileSystemAccess_success]
  simp [Nat.not_lt.mpr hmem, hext]

/-- The elaborate handler's non-simulate branch when all checks pass:
200 with the success body. -/
theorem healthHandlerChecked_none_success (env : ServerEnv) (now : String)
    (hmem : env.heapUsedMB ≤ 1024) (hext : env.extServiceHealthy = true) :
    healthHandlerChecked none env now = ⟨.success "ok" now, 200⟩ := by
  unfold healthHandlerChecked
  rw [performHealthChecks_ok env hmem hext]
  rfl

/-- The elaborate handler's non-simulate branch on the memory failure:
the thrown message contains "memory", so the catch branch assigns
SVR_001 and answers 500 with the resource failure body. -/
theorem healthHandlerChecked_none_memory (env : ServerEnv) (now : String)
    (hmem : 1024 < env.heapUsedMB) :
    healthHandlerChecked none env now =
      ⟨.failure "System resource health check failed" "SVR_001" now, 500⟩ := by
  unfold healthHandlerChecked
  rw [performHealthChecks_memory_fail env hmem]
  rfl

/-- The elaborate handler's non-simulate branch on the external-service
failure: the thrown message contains "EXTERNAL_SERVICE_ERROR", so the
catch branch assigns SVR_004 and answers 500 with the external failure
body. -/
theorem healthHandlerChecked_none_external (env : ServerEnv) (now : String)
    (hmem : env.heapUsedMB ≤ 1024) (hext : env.extServiceHealthy = false) :
    healthHandlerChecked none env now =
      ⟨.failure "External service health check failed" "SVR_004" now, 500⟩ := by
  unfold healthHandlerChecked
  rw [performHealthChecks_external_fail env hmem hext]
  rfl

/-- C5 counterexample: with no simulate parameter, the elaborate handler
revision does not return HTTP 200 — when the mock external service is
unhealthy it answers 500 with a failure body carrying SVR_004. -/
theorem healthHandler_no_simulate_not_ok :
    healthHandlerChecked none ⟨0, false, 0⟩ "2024-01-01T00:00:00.000Z" =
      ⟨.failure "External service health check failed" "SVR_004"
        "2024-01-01T00:00:00.000Z", 500⟩ ∧
    (healthHandlerChecked none ⟨0, false, 0⟩ "2024-01-01T00:00:00.000Z").httpStatus ≠ 200 := by
  decide

/-- C5 amended: the simulate branches behave as claimed in both OpenAPI
handler revisions (simulate=error answers SVR_002 with 500, one of
408/500/503; simulate=timeout answers NET_002 with 408), and with no
simulate parameter the simple revision always answers 200 with the
success body while the elaborate revision does so exactly when its
internal health checks pass (heap at most 1024 MB and external service
healthy): on excessive memory it answers 500 with the SVR_001 failure
body, on an unhealthy external service 500 with the SVR_004 failure
body, and those two cases cover every failing environment, so every
non-200 answer is a failure body with a status in 408/500/503; the
earliest plain-Hono revision answers 200 with a fixed text body. -/
theorem healthHandler_responses (now : String) (env : ServerEnv) :
    healthHandlerSimple none now = ⟨.success "ok" now, 200⟩ ∧
    healthHandlerSimple (some .simError) now =
      ⟨.failure "Service temporarily unavailable" "SVR_002" now, 500⟩ ∧
    healthHandlerSimple (some .simTimeout) now =
      ⟨.failure "Request timeout occurred" "NET_002" now, 408⟩ ∧
    healthHandlerChecked (some .simError) env now =
      ⟨.failure "Service temporarily unavailable for maintenance" "SVR_002" now, 500⟩ ∧
    healthHandlerChecked (some .simTimeout) env now =
      ⟨.failure "Health check request timeout occurred" "NET_002" now, 408⟩ ∧
    healthHandlerPlainText =
      ⟨.text "This is Nuxt Frontend Architect Sample API Server!", 200⟩ ∧
    (env.heapUsedMB ≤ 1024 → env.extServiceHealthy = true →
      healthHandlerChecked none env now = ⟨.success "ok" now, 200⟩) ∧
    (1024 < env.heapUsedMB →
      healthHandlerChecked none env now =
        ⟨.failure "System resource health check failed" "SVR_001" now, 500⟩) ∧
    (env.heapUsedMB ≤ 1024 → env.extServiceHealthy = false →
      healthHandlerChecked none env now =
        ⟨.failure "External service health check failed" "SVR_004" now, 500⟩) ∧
    (healthHandlerChecked none env now = ⟨.success "ok" now, 200⟩ →
      env.heapUsedMB ≤ 1024 ∧ env.extServiceHealthy = true) ∧
    (500 ∈ [408, 500, 503] ∧ 408 ∈ [408, 500, 503]) := by
  refine ⟨rfl, rfl, rfl, rfl, rfl, rfl,
    fun hmem hext => healthHandlerChecked_none_success env now hmem hext,
    fun hmem => healthHandlerChecked_none_memory env now hmem,
    fun hmem hext => healthHandlerChecked_none_external env now hmem hext,
    ?_, by decide⟩
  intro h
  rcases Nat.lt_or_ge 1024 env.heapUsedMB with hm | hm
  · rw [healthHandlerChecked_none_memory env now hm] at h
    simp at h
  · cases he : env.extServiceHealthy
    · rw [healthHandlerChecked_none_external env now hm he] at h
      simp at h
    · exact ⟨hm, rfl⟩

/-- Witness for the amended C5: the no-simulate branch of the elaborate
revision at a healthy, a memory-exhausted and an external-failure
environment, plus a simulate branch of each revision. -/
theorem healthHandler_responses_witness :
    healthHandlerChecked none ⟨64, true, 0⟩ "t" = ⟨.success "ok" "t", 200⟩ ∧
    healthHandlerChecked none ⟨2048, true, 0⟩ "t" =
      ⟨.failure "System resource health check failed" "SVR_001" "t", 500⟩ ∧
    healthHandlerChecked none ⟨64, false, 0⟩ "t" =
      ⟨.failure "External service health check failed" "SVR_004" "t", 500⟩ ∧
    healthHandlerChecked (some .simError) ⟨64, true, 0⟩ "t" =
      ⟨.failure "Service temporarily unavailable for maintenance" "SVR_002" "t", 500⟩ ∧
    healthHandlerSimple (some .simTimeout) "t" =
      ⟨.failure "Request timeout occurred" "NET_002" "t", 408⟩ :=
  ⟨(healthHandler_responses "t" ⟨64, true, 0⟩).2.2.2.2.2.2.1 (by decide) rfl,
   (healthHandler_responses "t" ⟨2048, true, 0⟩).2.2.2.2.2.2.2.1 (by decide),
   (healthHandler_responses "t" ⟨64, false, 0⟩).2.2.2.2.2.2.2.2.1 (by decide) rfl,
   (healthHandler_responses "t" ⟨64, true, 0⟩).2.2.2.1,
   (healthHandler_responses "t" ⟨64, true, 0⟩).2.2.1⟩
